import Mathlib

/-!
Shallow embedding of the TCP reassembly engine of the rust_pcap_test
repository (src/flow_buff.rs, src/conn.rs, src/connections.rs), together
with theorems settling the specification claims about it.

Machine integers are modelled as Nat with explicit wrapping (mod 2^64 for
u64/usize, mod 2^32 for u32) at the operations where Rust release builds
wrap.  A Rust panic is modelled as Option.none on the functions that can
panic; functions that cannot panic on the modelled paths return plain
values.
-/

/-- The modulus of 64-bit machine arithmetic, 2^64. -/
def U64M : Nat := 18446744073709551616

/-- Wrapping 64-bit addition, as performed by u64 `+` in release builds. -/
def u64add (a b : Nat) : Nat := (a + b) % U64M

/-- Wrapping 64-bit subtraction, as performed by u64 `-` in release builds
(for b already reduced below 2^64 it computes (a - b) mod 2^64). -/
def u64sub (a b : Nat) : Nat := (a + (U64M - b % U64M)) % U64M

/-- Wrapping 64-bit multiplication, as performed by u64 `*` in release builds. -/
def u64mul (a b : Nat) : Nat := (a * b) % U64M

/-- MAX_FORWARD_SEQ_JUMP of src/flow_buff.rs line 6: how far a future
sequence number is allowed to jump. -/
def MAX_FORWARD_SEQ_JUMP : Nat := 100000

/-- MAX_BUFFER_SIZE of src/flow_buff.rs line 8: the maximum buffer size
allowed before a panic is called. -/
def MAX_BUFFER_SIZE : Nat := 1000000

/-- The value of u32::MAX, which src/flow_buff.rs uses as the size of one
sequence-number wrap (note: this is 2^32 - 1, not 2^32). -/
def U32MAX : Nat := 4294967295

/-- FlowBuff of src/flow_buff.rs lines 10-32.  `data` is the reassembly
buffer (bytes as Nat), `data_filled_ranges` stores the filled ranges as
(start, inclusive end) pairs exactly as the Rust code stores
`start..end_inclusive` Range values (the `end` field of the stored Range
is the inclusive end, see add_data_filled_range's parameter name).
The Instant start_time field has no computational content and is omitted. -/
structure FlowBuff where
  data : List Nat
  data_filled_ranges : List (Nat × Nat)
  initial_sequence_number : Nat
  max_seq : Nat
  wrap_around : Nat
  byte_count : Nat
  packet_count : Nat
  window_scale : Nat
deriving DecidableEq

/-- FlowBuff::new of src/flow_buff.rs lines 35-47. -/
def FlowBuff.new : FlowBuff :=
  { data := [], data_filled_ranges := [], initial_sequence_number := 0,
    byte_count := 0, packet_count := 0, wrap_around := 0, max_seq := 0,
    window_scale := 1 }

/-- FlowBuff::has_ready_bytes of src/flow_buff.rs lines 51-54.  The Rust
code calls Range::len() on the stored range, which is end - start (and 0
when end < start); since the stored end is inclusive this is one less
than the number of bytes the range covers. -/
def FlowBuff.has_ready_bytes (fb : FlowBuff) (min_ready_bytes : Nat) : Bool :=
  match fb.data_filled_ranges.head? with
  | none => false
  | some r => r.2 - r.1 ≥ min_ready_bytes

/-- FlowBuff::has_ready_buffer of src/flow_buff.rs lines 57-60. -/
def FlowBuff.has_ready_buffer (fb : FlowBuff) (closed_connection : Bool)
    (min_ready_bytes : Nat) : Bool :=
  match fb.data_filled_ranges.head? with
  | none => false
  | some r => closed_connection || r.2 - r.1 ≥ min_ready_bytes

/-- The loop body of FlowBuff::add_data_filled_range of src/flow_buff.rs
lines 90-114, as a recursion over the stored list: the first range that
matches one of the three exact-edge cases is modified and iteration stops;
if none matches, the new (start, inclusive end) pair is pushed at the end. -/
def addFilledRange : List (Nat × Nat) → Nat → Nat → List (Nat × Nat)
  | [], s, e => [(s, e)]
  | r :: rest, s, e =>
    if r.2 + 1 = s then (r.1, e) :: rest
    else if r.1 = s then (if e > r.2 then (r.1, e) else r) :: rest
    else if r.1 = e + 1 then (s, r.2) :: rest
    else r :: addFilledRange rest s e

/-- FlowBuff::add_data_filled_range of src/flow_buff.rs lines 90-114. -/
def FlowBuff.add_data_filled_range (fb : FlowBuff) (start end_inclusive : Nat) :
    FlowBuff :=
  { fb with data_filled_ranges :=
      addFilledRange fb.data_filled_ranges start end_inclusive }

/-- FlowBuff::resize of src/flow_buff.rs lines 119-124: extend the buffer
with zero bytes up to the requested size (never shrinks). -/
def FlowBuff.resize (fb : FlowBuff) (size : Nat) : FlowBuff :=
  { fb with data := fb.data ++ List.replicate (size - fb.data.length) 0 }

/-- The write loop of FlowBuff::write_bytes (src/flow_buff.rs lines 79-83):
store the bytes one by one starting at the write position.  List.set is a
no-op out of bounds; the caller has already resized so that every written
position is in bounds. -/
def writeAt : List Nat → Nat → List Nat → List Nat
  | d, _, [] => d
  | d, pos, v :: rest => writeAt (d.set pos v) (pos + 1) rest

/-- FlowBuff::write_bytes of src/flow_buff.rs lines 69-86.  Returns none
for the panic on a write whose end exceeds MAX_BUFFER_SIZE (and the
current buffer length); otherwise extends the buffer as needed, copies the
bytes at wpos, and records the written range with inclusive end. -/
def FlowBuff.write_bytes (fb : FlowBuff) (bytes : List Nat) (wpos : Nat) :
    Option FlowBuff :=
  let size := bytes.length + wpos
  if size > fb.data.length then
    if size > MAX_BUFFER_SIZE then none
    else
      let fb1 := fb.resize size
      let fb2 := { fb1 with data := writeAt fb1.data wpos bytes }
      some (fb2.add_data_filled_range wpos (wpos + bytes.length - 1))
  else
    let fb2 := { fb with data := writeAt fb.data wpos bytes }
    some (fb2.add_data_filled_range wpos (wpos + bytes.length - 1))

/-- FlowBuff::set_initial_sequence_number of src/flow_buff.rs lines 137-140. -/
def FlowBuff.set_initial_sequence_number (fb : FlowBuff)
    (initial_sequence_number : Nat) : FlowBuff :=
  { fb with initial_sequence_number := initial_sequence_number,
            max_seq := initial_sequence_number }

/-- FlowBuff::relative_seq of src/flow_buff.rs lines 145-147:
seq + wrap_around * u32::MAX - initial_sequence_number - 1, in wrapping
u64 arithmetic exactly as the Rust expression evaluates it. -/
def FlowBuff.relative_seq (fb : FlowBuff) (seq : Nat) : Nat :=
  u64sub (u64sub (u64add seq (u64mul fb.wrap_around U32MAX))
    fb.initial_sequence_number) 1

/-- The wrap-around acceptance condition of src/flow_buff.rs line 161:
last_seq < max_seq && last_seq + u32::MAX > max_seq &&
last_seq + u32::MAX - MAX_FORWARD_SEQ_JUMP <= max_seq, in wrapping u64
arithmetic. -/
def wrapAroundCase (max_seq last_seq : Nat) : Prop :=
  last_seq < max_seq ∧ u64add last_seq U32MAX > max_seq ∧
    u64sub (u64add last_seq U32MAX) MAX_FORWARD_SEQ_JUMP ≤ max_seq

instance (m l : Nat) : Decidable (wrapAroundCase m l) := by
  unfold wrapAroundCase; infer_instance

/-- The last_seq computation of src/flow_buff.rs line 159:
tcp_seq + byte_count + wrap_around * u32::MAX in wrapping u64 arithmetic. -/
def lastSeqOf (fb : FlowBuff) (tcp_seq byte_count : Nat) : Nat :=
  u64add (u64add tcp_seq byte_count) (u64mul fb.wrap_around U32MAX)

/-- FlowBuff::add_bytes of src/flow_buff.rs lines 154-181.  Returns none
when the code would panic: either inside write_bytes (buffer ceiling), or
at the usize subtraction data.len() - byte_count when the slice is shorter
than the payload length.  The sequence policy mutates wrap_around/max_seq
(or neither, in the warning branch) before the payload is written. -/
def FlowBuff.add_bytes (fb : FlowBuff) (tcp_seq byte_count : Nat)
    (data : List Nat) : Option FlowBuff :=
  let fb0 := { fb with packet_count := fb.packet_count + 1 }
  if byte_count > 0 then
    let fb1 := { fb0 with byte_count := fb0.byte_count + byte_count }
    let last_seq := lastSeqOf fb1 tcp_seq byte_count
    let fb2 :=
      if wrapAroundCase fb1.max_seq last_seq then
        { fb1 with wrap_around := fb1.wrap_around + 1,
                   max_seq := u64add last_seq U32MAX }
      else if u64sub last_seq MAX_FORWARD_SEQ_JUMP < fb1.max_seq then
        { fb1 with max_seq := last_seq }
      else
        fb1
    if data.length < byte_count then none
    else
      let offset := data.length - byte_count
      if offset > 0 then
        let buf := data.drop offset
        let buffer_offset := fb2.relative_seq tcp_seq
        fb2.write_bytes buf buffer_offset
      else some fb2
  else some fb0

/-- PacketDir of src/conn.rs lines 54-59 (src/connections.rs lines 262-267
names the second variant DstLowAddr; the meaning is identical: the sender
is the higher (IP, port) endpoint). -/
inductive PacketDir where
  | SrcLowAddr
  | SrcHighAddr
deriving DecidableEq

/-- The opposite direction of a given packet direction. -/
def PacketDir.other : PacketDir → PacketDir
  | .SrcLowAddr => .SrcHighAddr
  | .SrcHighAddr => .SrcLowAddr

/-- ConnState of src/conn.rs lines 37-50 and src/connections.rs lines
244-258: the TCP connection state, carrying the direction of the party
referenced and, for SynSent/FinWait1/FinWait2, the expected
acknowledgement sequence. -/
inductive ConnState where
  | Created
  | SynSent (dir : PacketDir) (expected_ack : Nat)
  | Established (dir : PacketDir)
  | FinWait1 (dir : PacketDir) (expected_ack : Nat)
  | FinWait2 (dir : PacketDir) (expected_ack : Nat)
  | Closed (dir : PacketDir)
deriving DecidableEq

/-- TcpOptionElement as delivered by the external parser (src/conn.rs
lines 167-183 matches on MaximumSegmentSize and WindowScale and ignores
everything else, including parse errors, which `other` also covers). -/
inductive TcpOptionElem where
  | maximumSegmentSize (v : Nat)
  | windowScale (k : Nat)
  | other
deriving DecidableEq

/-- The per-packet TCP fields that Connections::process_packet consumes
from the external parser (flags, sequence and acknowledgment numbers,
the computed payload length, the TCP options and the raw packet bytes),
together with the direction already derived from the 4-tuple. -/
structure TcpPacketInfo where
  dir : PacketDir
  syn : Bool
  ack : Bool
  fin : Bool
  rst : Bool
  seq : Nat
  ackNum : Nat
  payload_len : Nat
  options : List TcpOptionElem
  data : List Nat
deriving DecidableEq

/-- The guard of src/connections.rs lines 93-94: the packet matches
FinWait2(wait_dir, wait_ack) with wait_dir != packet_dir, ACK set and the
packet's SEQUENCE number equal to the stored wait_ack. -/
def finWait2CloseMatch (st : ConnState) (p : TcpPacketInfo) : Bool :=
  match st with
  | .FinWait2 wait_dir wait_ack =>
      wait_dir != p.dir && p.ack && p.seq == wait_ack
  | _ => false

/-- The connection state transition of Connections::process_packet,
src/connections.rs lines 92-129, on one packet: RST or the FinWait2 close
match gives Closed; otherwise FIN drives Established to FinWait1 and
FinWait1 (other direction) to FinWait2; otherwise a SYN without ACK in
Created gives SynSent and a matching SYN+ACK in SynSent gives
Established.  Stored expected acks are seq+1 in wrapping u32 arithmetic. -/
def stepState (st : ConnState) (p : TcpPacketInfo) : ConnState :=
  if p.rst || finWait2CloseMatch st p then
    .Closed p.dir
  else if p.fin then
    match st with
    | .Established _ => .FinWait1 p.dir ((p.seq + 1) % 4294967296)
    | .FinWait1 wait_dir _ =>
        if wait_dir != p.dir then .FinWait2 p.dir ((p.seq + 1) % 4294967296)
        else st
    | _ => st
  else
    match st with
    | .Created =>
        if p.syn && !p.ack then .SynSent p.dir ((p.seq + 1) % 4294967296)
        else st
    | .SynSent syn_dir expected_tcp_ack =>
        if p.syn && p.ack && syn_dir != p.dir && p.ackNum == expected_tcp_ack
        then .Established syn_dir
        else st
    | _ => st

/-- Conn of src/conn.rs lines 13-26: the connection state and one FlowBuff
per direction.  The Instant start_time, the conn_sequence counter and the
conn_sign copy carry no behaviour relevant to the claims and are omitted. -/
structure Conn where
  state : ConnState
  flow_src_low : FlowBuff
  flow_src_high : FlowBuff
deriving DecidableEq

/-- Conn::new of src/conn.rs lines 62-71. -/
def Conn.new : Conn :=
  { state := .Created, flow_src_low := FlowBuff.new,
    flow_src_high := FlowBuff.new }

/-- The flow of a given direction (the routing match used throughout
src/conn.rs: SrcLowAddr selects flow_src_low, otherwise flow_src_high). -/
def Conn.flowOf (c : Conn) : PacketDir → FlowBuff
  | .SrcLowAddr => c.flow_src_low
  | .SrcHighAddr => c.flow_src_high

/-- Replace the flow of a given direction. -/
def Conn.setFlow (c : Conn) : PacketDir → FlowBuff → Conn
  | .SrcLowAddr, fb => { c with flow_src_low := fb }
  | .SrcHighAddr, fb => { c with flow_src_high := fb }

/-- Conn::set_initial_sequence_number of src/conn.rs lines 74-79: route
the ISN to the flow of the packet's direction. -/
def Conn.set_initial_sequence_number (c : Conn) (packet_dir : PacketDir)
    (initial_sequence_number : Nat) : Conn :=
  c.setFlow packet_dir
    ((c.flowOf packet_dir).set_initial_sequence_number initial_sequence_number)

/-- The effect of the option loop of Conn::process_tcp_options
(src/conn.rs lines 167-184) on one flow: a WindowScale option with shift
1..14 sets window_scale to 2^shift; everything else is ignored. -/
def FlowBuff.apply_tcp_options (fb : FlowBuff) (opts : List TcpOptionElem) :
    FlowBuff :=
  opts.foldl
    (fun f o =>
      match o with
      | .windowScale k =>
          if 1 ≤ k ∧ k ≤ 14 then { f with window_scale := 2 ^ k } else f
      | _ => f)
    fb

/-- Conn::process_tcp_options of src/conn.rs lines 161-185: scan the TCP
options of a SYN packet and apply them to the flow of its direction. -/
def Conn.process_tcp_options (c : Conn) (packet_dir : PacketDir)
    (opts : List TcpOptionElem) : Conn :=
  c.setFlow packet_dir ((c.flowOf packet_dir).apply_tcp_options opts)

/-- Modelled from the spec: the per-connection body of
Connections::process_packet that drives the Conn of src/conn.rs.  The
copy of connections.rs in src/ is a stale revision whose own flow-less
Conn never calls set_initial_sequence_number or process_tcp_options, and
src/main.rs calls a Connections::get_connections_by_rules that the stale
file does not contain, so the current connections.rs of the repository is
not in src/.  This definition follows spec sections 4.3 and 4.5 steps
5-6: evaluate the state transitions (identical to stepState, i.e. to
src/connections.rs lines 92-129), additionally calling
set_initial_sequence_number and process_tcp_options (both from src/) on
the two SYN-bearing transitions, then account the packet with
FlowBuff::add_bytes of src/flow_buff.rs on the packet direction's flow.
Returns none when add_bytes panics. -/
def Conn.process_packet_step (c : Conn) (p : TcpPacketInfo) : Option Conn :=
  let c1 :=
    if p.rst || finWait2CloseMatch c.state p then
      { c with state := .Closed p.dir }
    else if p.fin then
      match c.state with
      | .Established _ =>
          { c with state := .FinWait1 p.dir ((p.seq + 1) % 4294967296) }
      | .FinWait1 wait_dir _ =>
          if wait_dir != p.dir then
            { c with state := .FinWait2 p.dir ((p.seq + 1) % 4294967296) }
          else c
      | _ => c
    else
      match c.state with
      | .Created =>
          if p.syn && !p.ack then
            let ca := c.set_initial_sequence_number p.dir p.seq
            let cb := ca.process_tcp_options p.dir p.options
            { cb with state := .SynSent p.dir ((p.seq + 1) % 4294967296) }
          else c
      | .SynSent syn_dir expected_tcp_ack =>
          if p.syn && p.ack && syn_dir != p.dir && p.ackNum == expected_tcp_ack
          then
            let ca := c.set_initial_sequence_number p.dir p.seq
            let cb := ca.process_tcp_options p.dir p.options
            { cb with state := .Established syn_dir }
          else c
      | _ => c
  match (c1.flowOf p.dir).add_bytes p.seq p.payload_len p.data with
  | none => none
  | some fb => some (c1.setFlow p.dir fb)

/-- Conn::sign_by_tuple of src/conn.rs lines 95-108.  IPv4 addresses are
their 32-bit big-endian numeric values (Rust's Ipv4Addr order agrees with
this numeric order); the branch condition and the bit packing are exactly
those of the source.  The copy in src/connections.rs lines 207-220 has the
same branch condition with a different (equally fixed) bit layout. -/
def sign_by_tuple (src_ip src_port dst_ip dst_port : Nat) : Nat × PacketDir :=
  if src_ip < dst_ip ∨ src_port < dst_port then
    ((src_ip <<< 16) ||| src_port ||| (dst_ip <<< 64) ||| (dst_port <<< 48),
      .SrcLowAddr)
  else
    ((dst_ip <<< 16) ||| dst_port ||| (src_ip <<< 64) ||| (src_port <<< 48),
      .SrcHighAddr)

/-- Packet constructor for the end-to-end scenarios of spec section 8
(options and raw data empty, which the state machine never reads). -/
def mkPkt (d : PacketDir) (syn ack fin rst : Bool) (seq ackNum plen : Nat) :
    TcpPacketInfo :=
  { dir := d, syn := syn, ack := ack, fin := fin, rst := rst, seq := seq,
    ackNum := ackNum, payload_len := plen, options := [], data := [] }

/-- Scenario packet P1: 10.0.0.1:40000 to 10.0.0.2:80, SYN, seq 1000. -/
def scnP1 : TcpPacketInfo := mkPkt .SrcLowAddr true false false false 1000 0 0

/-- Scenario packet P2: SYN+ACK from the high endpoint, seq 5000, ack 1001. -/
def scnP2 : TcpPacketInfo := mkPkt .SrcHighAddr true true false false 5000 1001 0

/-- Scenario packet P3: ACK from the low endpoint, seq 1001, ack 5001,
4 payload bytes. -/
def scnP3 : TcpPacketInfo := mkPkt .SrcLowAddr false true false false 1001 5001 4

/-- Scenario packet P4: FIN from the low endpoint, seq 1005. -/
def scnP4 : TcpPacketInfo := mkPkt .SrcLowAddr false true true false 1005 0 0

/-- Scenario packet P5: FIN from the high endpoint, seq 5001. -/
def scnP5 : TcpPacketInfo := mkPkt .SrcHighAddr false true true false 5001 0 0

/-- Scenario packet P6: ACK from the low endpoint, seq 1006, ack 5002. -/
def scnP6 : TcpPacketInfo := mkPkt .SrcLowAddr false true false false 1006 5002 0

/-- A data packet whose sequence number is about two million beyond the
(unset) ISN, with 10 payload bytes inside a 20-byte captured slice: its
reassembly write position exceeds MAX_BUFFER_SIZE. -/
def bigSeqPacket : TcpPacketInfo :=
  { dir := .SrcLowAddr, syn := false, ack := false, fin := false,
    rst := false, seq := 2000000, ackNum := 0, payload_len := 10,
    options := [], data := List.replicate 20 0 }

/-- The first handshake packet of a concrete handshake run: SYN from the
low endpoint, seq 1000, carrying a window-scale 7 option. -/
def wP1 : TcpPacketInfo :=
  { dir := .SrcLowAddr, syn := true, ack := false, fin := false,
    rst := false, seq := 1000, ackNum := 0, payload_len := 0,
    options := [.windowScale 7], data := [] }

/-- The second handshake packet of the concrete run: SYN+ACK from the
high endpoint, seq 5000, ack 1001. -/
def wP2 : TcpPacketInfo :=
  { dir := PacketDir.SrcLowAddr.other, syn := true, ack := true,
    fin := false, rst := false, seq := 5000,
    ackNum := (1000 + 1) % 4294967296, payload_len := 0, options := [],
    data := [] }

/-- The connection after processing wP1 on a fresh connection. -/
def wC1 : Conn := (Conn.new.process_packet_step wP1).getD Conn.new

/-- The connection after processing wP1 then wP2 on a fresh connection. -/
def wC2 : Conn := (wC1.process_packet_step wP2).getD Conn.new

theorem u64add_eq_of_lt {a b : Nat} (h : a + b < U64M) : u64add a b = a + b := by
  unfold u64add; exact Nat.mod_eq_of_lt h

theorem u64mul_eq_of_lt {a b : Nat} (h : a * b < U64M) : u64mul a b = a * b := by
  unfold u64mul; exact Nat.mod_eq_of_lt h

theorem u64sub_eq_of_le {a b : Nat} (hba : b ≤ a) (ha : a < U64M) :
    u64sub a b = a - b := by
  unfold u64sub
  rw [Nat.mod_eq_of_lt (by omega : b < U64M)]
  have h1 : a + (U64M - b) = (a - b) + U64M := by omega
  rw [h1, Nat.add_mod_right, Nat.mod_eq_of_lt (by omega)]

theorem writeAt_length (b : List Nat) :
    ∀ (d : List Nat) (p : Nat), (writeAt d p b).length = d.length := by
  induction b with
  | nil => intro d p; rfl
  | cons v rest ih => intro d p; rw [writeAt, ih, List.length_set]

theorem writeAt_getElem_lt (b : List Nat) :
    ∀ (d : List Nat) (p q : Nat), q < p → (writeAt d p b)[q]? = d[q]? := by
  induction b with
  | nil => intro d p q _; rfl
  | cons v rest ih =>
    intro d p q hq
    rw [writeAt, ih _ _ _ (by omega), List.getElem?_set_ne (by omega)]

theorem writeAt_extract (b : List Nat) :
    ∀ (d : List Nat) (p : Nat), p + b.length ≤ d.length →
      ((writeAt d p b).drop p).take b.length = b := by
  induction b with
  | nil => intro d p _; simp
  | cons v rest ih =>
    intro d p h
    have hlen : (v :: rest).length = rest.length + 1 := rfl
    rw [hlen] at h
    have hp : p < d.length := by omega
    have hwlen : (writeAt (d.set p v) (p + 1) rest).length = d.length := by
      rw [writeAt_length, List.length_set]
    have hplt : p < (writeAt (d.set p v) (p + 1) rest).length := by omega
    have hget? : (writeAt (d.set p v) (p + 1) rest)[p]? = some v := by
      rw [writeAt_getElem_lt rest _ _ _ (Nat.lt_succ_self p),
        List.getElem?_set_eq_of_lt v hp]
    have hget : (writeAt (d.set p v) (p + 1) rest)[p] = v := by
      rw [List.getElem?_eq_getElem hplt] at hget?
      exact Option.some.inj hget?
    rw [writeAt, hlen, List.drop_eq_getElem_cons hplt, List.take_succ_cons, hget,
      ih (d.set p v) (p + 1) (by rw [List.length_set]; omega)]

theorem write_bytes_fields {fb fb' : FlowBuff} {bytes : List Nat} {wpos : Nat}
    (h : fb.write_bytes bytes wpos = some fb') :
    fb'.max_seq = fb.max_seq ∧ fb'.wrap_around = fb.wrap_around ∧
    fb'.initial_sequence_number = fb.initial_sequence_number ∧
    fb'.byte_count = fb.byte_count ∧ fb'.packet_count = fb.packet_count ∧
    fb'.window_scale = fb.window_scale := by
  simp only [FlowBuff.write_bytes] at h
  split at h
  · split at h
    · exact absurd h (by simp)
    · simp only [Option.some.injEq] at h
      subst h
      simp [FlowBuff.add_data_filled_range, FlowBuff.resize]
  · simp only [Option.some.injEq] at h
    subst h
    simp [FlowBuff.add_data_filled_range]

theorem write_bytes_spec {fb fb' : FlowBuff} {bytes : List Nat} {wpos : Nat}
    (h : fb.write_bytes bytes wpos = some fb') :
    fb'.data_filled_ranges =
      addFilledRange fb.data_filled_ranges wpos (wpos + bytes.length - 1) ∧
    fb'.data.length ≥ wpos + bytes.length ∧
    (fb'.data.drop wpos).take bytes.length = bytes := by
  simp only [FlowBuff.write_bytes] at h
  split at h
  case isTrue hgt =>
    split at h
    · exact absurd h (by simp)
    · simp only [Option.some.injEq] at h
      subst h
      have hlen : (fb.resize (bytes.length + wpos)).data.length =
          bytes.length + wpos := by
        simp only [FlowBuff.resize, List.length_append, List.length_replicate]
        omega
      refine ⟨by simp [FlowBuff.add_data_filled_range, FlowBuff.resize], ?_, ?_⟩
      · simp only [FlowBuff.add_data_filled_range]
        rw [writeAt_length, hlen]
        omega
      · simp only [FlowBuff.add_data_filled_range]
        exact writeAt_extract bytes _ wpos (by omega)
  case isFalse hle =>
    simp only [Option.some.injEq] at h
    subst h
    refine ⟨by simp [FlowBuff.add_data_filled_range], ?_, ?_⟩
    · simp only [FlowBuff.add_data_filled_range]
      rw [writeAt_length]
      omega
    · simp only [FlowBuff.add_data_filled_range]
      exact writeAt_extract bytes _ wpos (by omega)

/-- C7: inserting the half-open byte range [a,b) (stored as the pair
(a, b-1) with inclusive end, exactly as write_bytes records it) and then
[b,c) into a FlowBuff with no filled ranges leaves exactly one stored
range covering [a,c); inserting [a,b) twice leaves exactly one range
covering [a,b); inserting [b,c) then [a,b) leaves exactly one range
covering [a,c). -/
theorem filled_range_merge (fb : FlowBuff) (a b c : Nat)
    (h0 : fb.data_filled_ranges = []) (hab : a < b) (hbc : b < c) :
    ((fb.add_data_filled_range a (b - 1)).add_data_filled_range b
        (c - 1)).data_filled_ranges = [(a, c - 1)] ∧
    ((fb.add_data_filled_range a (b - 1)).add_data_filled_range a
        (b - 1)).data_filled_ranges = [(a, b - 1)] ∧
    ((fb.add_data_filled_range b (c - 1)).add_data_filled_range a
        (b - 1)).data_filled_ranges = [(a, c - 1)] := by
  simp only [FlowBuff.add_data_filled_range, h0]
  refine ⟨?_, ?_, ?_⟩
  · show addFilledRange (addFilledRange [] a (b - 1)) b (c - 1) = [(a, c - 1)]
    rw [show addFilledRange [] a (b - 1) = [(a, b - 1)] from rfl]
    rw [addFilledRange]
    simp only
    rw [if_pos (by omega)]
  · show addFilledRange (addFilledRange [] a (b - 1)) a (b - 1) = [(a, b - 1)]
    rw [show addFilledRange [] a (b - 1) = [(a, b - 1)] from rfl]
    rw [addFilledRange]
    simp only
    rw [if_neg (show ¬(b - 1 + 1 = a) by omega)]
    simp [Nat.lt_irrefl]
  · show addFilledRange (addFilledRange [] b (c - 1)) a (b - 1) = [(a, c - 1)]
    rw [show addFilledRange [] b (c - 1) = [(b, c - 1)] from rfl]
    rw [addFilledRange]
    simp only
    rw [if_neg (show ¬(c - 1 + 1 = a) by omega), if_neg (show ¬(b = a) by omega),
      if_pos (show b = b - 1 + 1 by omega)]

/-- Witness for filled_range_merge at a = 0, b = 2, c = 5 on a fresh
FlowBuff. -/
theorem filled_range_merge_witness :
    ((FlowBuff.new.add_data_filled_range 0 1).add_data_filled_range 2
        4).data_filled_ranges = [(0, 4)] ∧
    ((FlowBuff.new.add_data_filled_range 0 1).add_data_filled_range 0
        1).data_filled_ranges = [(0, 1)] ∧
    ((FlowBuff.new.add_data_filled_range 2 4).add_data_filled_range 0
        1).data_filled_ranges = [(0, 4)] :=
  filled_range_merge FlowBuff.new 0 2 5 (by decide) (by decide) (by decide)

/-- C10: any write whose end position wpos + bytes.len() exceeds both
MAX_BUFFER_SIZE = 1000000 and the current buffer length makes write_bytes
panic (modelled as none); the ceiling is compiled in and unconditional. -/
theorem write_bytes_ceiling_panics (fb : FlowBuff) (bytes : List Nat)
    (wpos : Nat) (h1 : wpos + bytes.length > MAX_BUFFER_SIZE)
    (h2 : wpos + bytes.length > fb.data.length) :
    fb.write_bytes bytes wpos = none := by
  simp only [FlowBuff.write_bytes]
  rw [if_pos (by omega), if_pos (by omega)]

/-- Witness for write_bytes_ceiling_panics: writing one byte at position
1000000 into a fresh FlowBuff panics. -/
theorem write_bytes_ceiling_panics_witness :
    1000000 + ([1] : List Nat).length > MAX_BUFFER_SIZE ∧
    FlowBuff.new.write_bytes [1] 1000000 = none :=
  ⟨by decide, write_bytes_ceiling_panics FlowBuff.new [1] 1000000 (by decide)
    (by decide)⟩

/-- C8 counterexample: after writing the four bytes 65,66,67,68 at
position 0 of a fresh FlowBuff the single filled range is stored as
(0, 3) and covers 3 - 0 + 1 = 4 filled bytes, yet has_ready_bytes 4 is
false, so has_ready_bytes min is not equivalent to the first range
covering at least min bytes. -/
theorem has_ready_bytes_cex :
    (FlowBuff.new.write_bytes [65, 66, 67, 68] 0).map
      (fun fb => fb.has_ready_bytes 4) = some false ∧
    (FlowBuff.new.write_bytes [65, 66, 67, 68] 0).map
      FlowBuff.data_filled_ranges = some [(0, 3)] ∧
    3 - 0 + 1 = (4 : Nat) := by
  refine ⟨by decide, by decide, by decide⟩

/-- C8 amended: has_ready_bytes min is true iff data_filled_ranges is
non-empty and its first stored range (s, e) satisfies e - s >= min, i.e.
the first range covers at least min + 1 filled bytes (the code compares
Range::len() = inclusive end minus start, one less than the bytes
covered, against min). -/
theorem has_ready_bytes_iff (fb : FlowBuff) (m : Nat) :
    fb.has_ready_bytes m = true ↔
      ∃ s e rest, fb.data_filled_ranges = (s, e) :: rest ∧
        e - s + 1 ≥ m + 1 := by
  unfold FlowBuff.has_ready_bytes
  cases h : fb.data_filled_ranges with
  | nil => simp [h]
  | cons r rest =>
    obtain ⟨s, e⟩ := r
    simp only [h, List.head?, decide_eq_true_eq]
    constructor
    · intro hge
      exact ⟨s, e, rest, rfl, by omega⟩
    · rintro ⟨s', e', rest', heq, hge⟩
      injection heq with h1 h2
      injection h1 with hs he
      subst hs; subst he
      omega

/-- C3 counterexample: with wrap_around = 1 and ISN 0 the code returns
relative_seq 0 = 0 + 1 * u32::MAX - 0 - 1 = 4294967294, not the claimed
0 + 1 * 2^32 - 0 - 1 = 4294967295: the code multiplies the wrap count by
u32::MAX = 2^32 - 1, not by 2^32. -/
theorem relative_seq_claim_cex :
    FlowBuff.relative_seq { FlowBuff.new with wrap_around := 1 } 0 =
      4294967294 ∧
    (4294967294 : Nat) ≠ 0 + 1 * 2 ^ 32 - 0 - 1 := by
  exact ⟨by decide, by decide⟩

/-- C3 amended: whenever the exact value seq + wrap_around * 4294967295
is at least isn + 1 and below 2^64, relative_seq returns exactly
seq + wrap_around * (2^32 - 1) - isn - 1 (the wrap multiplier is
u32::MAX = 2^32 - 1, not 2^32; outside this window the u64 arithmetic
wraps modulo 2^64). -/
theorem relative_seq_formula (fb : FlowBuff) (seq : Nat)
    (h1 : fb.initial_sequence_number + 1 ≤
      seq + fb.wrap_around * 4294967295)
    (h2 : seq + fb.wrap_around * 4294967295 < U64M) :
    fb.relative_seq seq =
      seq + fb.wrap_around * 4294967295 - fb.initial_sequence_number - 1 := by
  unfold FlowBuff.relative_seq U32MAX
  rw [u64mul_eq_of_lt (by omega), u64add_eq_of_lt (by omega)]
  have hin : u64sub (seq + fb.wrap_around * 4294967295)
      fb.initial_sequence_number =
      seq + fb.wrap_around * 4294967295 - fb.initial_sequence_number :=
    u64sub_eq_of_le (by omega) (by omega)
  rw [hin, u64sub_eq_of_le (by omega) (by omega)]

/-- Witness for relative_seq_formula at ISN 1000, one wrap, seq 5. -/
theorem relative_seq_formula_witness :
    (1000 + 1 ≤ 5 + 1 * 4294967295) ∧
    FlowBuff.relative_seq
      { FlowBuff.new with initial_sequence_number := 1000, wrap_around := 1 }
      5 = 4294966299 := by
  constructor
  · decide
  · have h := relative_seq_formula
      { FlowBuff.new with initial_sequence_number := 1000, wrap_around := 1 }
      5 (by decide) (by decide)
    simpa using h

/-- C1: sign_by_tuple is not symmetric under swapping source and
destination when the IP order and the port order disagree: for
src = 2.0.0.0:1 (IP value 33554432) and dst = 1.0.0.0:5 (IP value
16777216) both the original and the swapped call take the first branch,
so both report direction SrcLowAddr and produce two different signatures,
contradicting the claimed same-signature opposite-direction behaviour
(and the function's own doc comment). -/
theorem sign_by_tuple_asymmetric :
    (sign_by_tuple 33554432 1 16777216 5).2 = PacketDir.SrcLowAddr ∧
    (sign_by_tuple 16777216 5 33554432 1).2 = PacketDir.SrcLowAddr ∧
    (sign_by_tuple 33554432 1 16777216 5).1 ≠
      (sign_by_tuple 16777216 5 33554432 1).1 := by
  decide

theorem relative_seq_congr {a b : FlowBuff} (s : Nat)
    (hw : a.wrap_around = b.wrap_around)
    (hi : a.initial_sequence_number = b.initial_sequence_number) :
    a.relative_seq s = b.relative_seq s := by
  unfold FlowBuff.relative_seq
  rw [hw, hi]

theorem write_bytes_payload_spec {g fb' : FlowBuff} {data : List Nat}
    {byte_count tcp_seq : Nat}
    (hlen : byte_count ≤ data.length)
    (h : g.write_bytes (data.drop (data.length - byte_count))
      (g.relative_seq tcp_seq) = some fb') :
    fb'.data_filled_ranges =
      addFilledRange g.data_filled_ranges (fb'.relative_seq tcp_seq)
        (fb'.relative_seq tcp_seq + byte_count - 1) ∧
    fb'.data.length ≥ fb'.relative_seq tcp_seq + byte_count ∧
    (fb'.data.drop (fb'.relative_seq tcp_seq)).take byte_count =
      data.drop (data.length - byte_count) := by
  obtain ⟨hm, hw, hi, _, _, _⟩ := write_bytes_fields h
  have hrel : fb'.relative_seq tcp_seq = g.relative_seq tcp_seq :=
    relative_seq_congr tcp_seq hw hi
  obtain ⟨hr, hl, hx⟩ := write_bytes_spec h
  have hdl : (data.drop (data.length - byte_count)).length = byte_count := by
    rw [List.length_drop]; omega
  rw [hdl] at hr hl hx
  rw [hrel]
  exact ⟨hr, hl, hx⟩

/-- C4 counterexample: on a fresh FlowBuff (max_seq = 0) a packet with
tcp_seq = 99990 and 10 payload bytes gives last_seq = 100000, which
exceeds max_seq by exactly J = MAX_FORWARD_SEQ_JUMP and does not satisfy
the wrap-around case; the claim demands max_seq = 100000, but the code
leaves max_seq = 0 because its test last_seq - J < max_seq is strict. -/
theorem add_bytes_jump_boundary_cex :
    (FlowBuff.new.add_bytes 99990 10 (List.replicate 10 0)).map
      FlowBuff.max_seq = some 0 ∧
    ¬ wrapAroundCase FlowBuff.new.max_seq (lastSeqOf FlowBuff.new 99990 10) ∧
    lastSeqOf FlowBuff.new 99990 10 =
      FlowBuff.new.max_seq + MAX_FORWARD_SEQ_JUMP := by
  refine ⟨by decide, by decide, by decide⟩

/-- C4 amended: in every completed add_bytes call with non-zero payload
in which the wrap-around case does not apply, max_seq is set to last_seq
exactly when the wrapping u64 value last_seq - J is below max_seq, and
wrap_around is unchanged; when last_seq ≥ J (so the subtraction does not
wrap) that condition says last_seq exceeds max_seq by STRICTLY less than
J (which includes every case last_seq ≤ max_seq), so a jump of exactly J
or more only logs a warning and leaves max_seq unchanged — and when
last_seq < J the wrapped subtraction makes the comparison fail for every
realistic max_seq, so such packets are also treated as suspicious. -/
theorem add_bytes_seq_policy (fb : FlowBuff) (tcp_seq byte_count : Nat)
    (data : List Nat) (fb' : FlowBuff)
    (hbc : byte_count > 0)
    (hnw : ¬ wrapAroundCase fb.max_seq (lastSeqOf fb tcp_seq byte_count))
    (h : fb.add_bytes tcp_seq byte_count data = some fb') :
    (fb'.max_seq =
      if u64sub (lastSeqOf fb tcp_seq byte_count) MAX_FORWARD_SEQ_JUMP <
          fb.max_seq
      then lastSeqOf fb tcp_seq byte_count else fb.max_seq) ∧
    fb'.wrap_around = fb.wrap_around ∧
    (MAX_FORWARD_SEQ_JUMP ≤ lastSeqOf fb tcp_seq byte_count →
      lastSeqOf fb tcp_seq byte_count < U64M →
      (u64sub (lastSeqOf fb tcp_seq byte_count) MAX_FORWARD_SEQ_JUMP <
          fb.max_seq ↔
        lastSeqOf fb tcp_seq byte_count <
          fb.max_seq + MAX_FORWARD_SEQ_JUMP)) := by
  have hkey : fb'.max_seq =
      (if u64sub (lastSeqOf fb tcp_seq byte_count) MAX_FORWARD_SEQ_JUMP <
          fb.max_seq
       then lastSeqOf fb tcp_seq byte_count else fb.max_seq) ∧
      fb'.wrap_around = fb.wrap_around := by
    simp only [FlowBuff.add_bytes] at h
    rw [if_pos hbc] at h
    simp only [lastSeqOf] at h hnw ⊢
    rw [if_neg hnw] at h
    by_cases hc : u64sub (u64add (u64add tcp_seq byte_count)
        (u64mul fb.wrap_around U32MAX)) MAX_FORWARD_SEQ_JUMP < fb.max_seq
    · rw [if_pos hc] at h
      rw [if_pos hc]
      split at h
      · exact absurd h (by simp)
      · split at h
        · obtain ⟨hm, hw, _, _, _, _⟩ := write_bytes_fields h
          exact ⟨by simpa using hm, by simpa using hw⟩
        · simp only [Option.some.injEq] at h
          subst h
          exact ⟨rfl, rfl⟩
    · rw [if_neg hc] at h
      rw [if_neg hc]
      split at h
      · exact absurd h (by simp)
      · split at h
        · obtain ⟨hm, hw, _, _, _, _⟩ := write_bytes_fields h
          exact ⟨by simpa using hm, by simpa using hw⟩
        · simp only [Option.some.injEq] at h
          subst h
          exact ⟨rfl, rfl⟩
  refine ⟨hkey.1, hkey.2, ?_⟩
  intro hJ hlt
  rw [u64sub_eq_of_le hJ hlt]
  omega

/-- Witness for add_bytes_seq_policy: seq 50 with 10 payload bytes on a
fresh FlowBuff has last_seq = 60 < J, the u64 subtraction 60 - 100000
wraps, and max_seq stays 0. -/
theorem add_bytes_seq_policy_witness :
    FlowBuff.new.add_bytes 50 10 (List.replicate 10 0) =
      some ((FlowBuff.new.add_bytes 50 10 (List.replicate 10 0)).getD
        FlowBuff.new) ∧
    ((FlowBuff.new.add_bytes 50 10 (List.replicate 10 0)).getD
      FlowBuff.new).max_seq = 0 := by
  have h : FlowBuff.new.add_bytes 50 10 (List.replicate 10 0) =
      some ((FlowBuff.new.add_bytes 50 10 (List.replicate 10 0)).getD
        FlowBuff.new) := by decide
  have hk := add_bytes_seq_policy FlowBuff.new 50 10 (List.replicate 10 0) _
    (by decide) (by decide) h
  refine ⟨h, ?_⟩
  rw [hk.1]
  decide

/-- C6 counterexample: a FlowBuff whose ISN has been set to 1000 receives
add_bytes with tcp_seq = 1001 and the 2-byte payload 65,66 passed as a
data slice of exactly payload length; the claim demands the payload be
written at offset relative_seq(1001) = 0 and the range merged, but the
code writes nothing at all because its write is gated on
data.len() > byte_count (the ISN is never consulted). -/
theorem add_bytes_no_write_cex :
    ((FlowBuff.new.set_initial_sequence_number 1000).add_bytes 1001 2
      [65, 66]).map FlowBuff.data_filled_ranges = some [] ∧
    ((FlowBuff.new.set_initial_sequence_number 1000).add_bytes 1001 2
      [65, 66]).map FlowBuff.data = some [] ∧
    (FlowBuff.new.set_initial_sequence_number 1000).relative_seq 1001 = 0 := by
  refine ⟨by decide, by decide, by decide⟩

/-- C6 amended: in every completed add_bytes call with non-zero payload
whose data slice is strictly longer than the payload (the code's actual
write condition, regardless of whether the ISN has been set and even when
the wrap/jump policy rejected the sequence), the final byte_count bytes
of data are written at offset off = relative_seq(tcp_seq) (evaluated
after the policy update; fb' has the same wrap_around and ISN, so it is
also fb'.relative_seq tcp_seq), the buffer extends to at least
off + byte_count, and the range is merged into data_filled_ranges. -/
theorem add_bytes_writes_payload (fb : FlowBuff) (tcp_seq byte_count : Nat)
    (data : List Nat) (fb' : FlowBuff)
    (hbc : byte_count > 0) (hlen : byte_count < data.length)
    (h : fb.add_bytes tcp_seq byte_count data = some fb') :
    fb'.data_filled_ranges =
      addFilledRange fb.data_filled_ranges (fb'.relative_seq tcp_seq)
        (fb'.relative_seq tcp_seq + byte_count - 1) ∧
    fb'.data.length ≥ fb'.relative_seq tcp_seq + byte_count ∧
    (fb'.data.drop (fb'.relative_seq tcp_seq)).take byte_count =
      data.drop (data.length - byte_count) := by
  simp only [FlowBuff.add_bytes] at h
  rw [if_pos hbc, if_neg (show ¬ data.length < byte_count by omega),
    if_pos (show data.length - byte_count > 0 by omega)] at h
  split at h
  · have := write_bytes_payload_spec (by omega) h
    simpa using this
  · split at h
    · have := write_bytes_payload_spec (by omega) h
      simpa using this
    · have := write_bytes_payload_spec (by omega) h
      simpa using this

/-- Witness for add_bytes_writes_payload: ISN 1000, seq 1001, payload
65,66 preceded by one header byte lands at offset 0. -/
theorem add_bytes_writes_payload_witness :
    (2 : Nat) < ([9, 65, 66] : List Nat).length ∧
    ((((FlowBuff.new.set_initial_sequence_number 1000).add_bytes 1001 2
        [9, 65, 66]).getD FlowBuff.new).data.drop
      ((((FlowBuff.new.set_initial_sequence_number 1000).add_bytes 1001 2
        [9, 65, 66]).getD FlowBuff.new).relative_seq 1001)).take 2 =
      [9, 65, 66].drop (3 - 2) := by
  have h : (FlowBuff.new.set_initial_sequence_number 1000).add_bytes 1001 2
      [9, 65, 66] =
      some (((FlowBuff.new.set_initial_sequence_number 1000).add_bytes 1001 2
        [9, 65, 66]).getD FlowBuff.new) := by decide
  have hk := add_bytes_writes_payload _ 1001 2 [9, 65, 66] _ (by decide)
    (by decide) h
  exact ⟨by decide, hk.2.2⟩

/-- Either branch of add_bytes with zero payload only bumps the packet
counter and always succeeds. -/
theorem add_bytes_zero (fb : FlowBuff) (s : Nat) (d : List Nat) :
    fb.add_bytes s 0 d =
      some { fb with packet_count := fb.packet_count + 1 } := by
  simp [FlowBuff.add_bytes]

/-- C5 (evaluating the code at the scenario input): after the scenario-1
handshake the state is Established(SrcLowAddr); P4 (FIN from the low
endpoint, seq 1005) gives FinWait1(SrcLowAddr, 1006) and P5 (FIN from the
high endpoint, seq 5001) gives FinWait2(SrcHighAddr, 5002) as the claim
says, but P6 (ACK from the low endpoint, seq 1006, ack 5002) leaves the
state FinWait2(SrcHighAddr, 5002) instead of the claimed
Closed(SrcLowAddr): the close test of src/connections.rs line 94 compares
the packet's sequence number 1006 against the stored expected ack 5002. -/
theorem fin_scenario_final_state :
    stepState (stepState (stepState ConnState.Created scnP1) scnP2) scnP3 =
      ConnState.Established PacketDir.SrcLowAddr ∧
    stepState (ConnState.Established PacketDir.SrcLowAddr) scnP4 =
      ConnState.FinWait1 PacketDir.SrcLowAddr 1006 ∧
    stepState (ConnState.FinWait1 PacketDir.SrcLowAddr 1006) scnP5 =
      ConnState.FinWait2 PacketDir.SrcHighAddr 5002 ∧
    stepState (ConnState.FinWait2 PacketDir.SrcHighAddr 5002) scnP6 =
      ConnState.FinWait2 PacketDir.SrcHighAddr 5002 ∧
    ConnState.FinWait2 PacketDir.SrcHighAddr 5002 ≠
      ConnState.Closed PacketDir.SrcLowAddr := by
  decide

/-- C9 counterexample: a single packet whose sequence number is about two
million beyond the ISN drives the reassembly write position past
MAX_BUFFER_SIZE, so write_bytes panics inside process_packet (modelled as
none), contradicting the claim that no input causes a panic. -/
theorem process_packet_big_write_cex :
    Conn.new.process_packet_step bigSeqPacket = none := by
  decide

/-- C9 amended: process_packet absorbs every anomaly and returns normally
on every zero-payload packet (all control traffic, truncated frames and
parse failures included); the only escaping failure is the write_bytes
panic on a payload write past MAX_BUFFER_SIZE, exhibited by the
counterexample. -/
theorem process_packet_zero_payload_total (c : Conn) (p : TcpPacketInfo)
    (h : p.payload_len = 0) :
    (c.process_packet_step p).isSome = true := by
  simp only [Conn.process_packet_step, h, add_bytes_zero]
  simp

/-- Witness for process_packet_zero_payload_total: an RST packet with no
payload on a fresh connection is processed normally. -/
theorem process_packet_zero_payload_total_witness :
    (mkPkt PacketDir.SrcLowAddr false false false true 7 0 0).payload_len =
      0 ∧
    (Conn.new.process_packet_step
      (mkPkt PacketDir.SrcLowAddr false false false true 7 0 0)).isSome =
      true :=
  ⟨by decide, process_packet_zero_payload_total Conn.new _ (by decide)⟩

theorem other_other (d : PacketDir) : d.other.other = d := by
  cases d <;> rfl

theorem setFlow_state (c : Conn) (d : PacketDir) (fb : FlowBuff) :
    (c.setFlow d fb).state = c.state := by
  cases d <;> rfl

theorem flowOf_setFlow_same (c : Conn) (d : PacketDir) (fb : FlowBuff) :
    (c.setFlow d fb).flowOf d = fb := by
  cases d <;> rfl

theorem flowOf_setFlow_other (c : Conn) (d : PacketDir) (fb : FlowBuff) :
    (c.setFlow d fb).flowOf d.other = c.flowOf d.other := by
  cases d <;> rfl

theorem state_update_flowOf (c : Conn) (s : ConnState) (d : PacketDir) :
    ({ c with state := s } : Conn).flowOf d = c.flowOf d := by
  cases d <;> rfl

theorem apply_tcp_options_cons (f : FlowBuff) (o : TcpOptionElem)
    (rest : List TcpOptionElem) :
    f.apply_tcp_options (o :: rest) =
      (match o with
       | .windowScale k =>
           if 1 ≤ k ∧ k ≤ 14 then { f with window_scale := 2 ^ k } else f
       | _ => f).apply_tcp_options rest := rfl

theorem apply_tcp_options_seq_fields (opts : List TcpOptionElem) :
    ∀ f : FlowBuff,
      (f.apply_tcp_options opts).initial_sequence_number =
        f.initial_sequence_number ∧
      (f.apply_tcp_options opts).max_seq = f.max_seq := by
  induction opts with
  | nil => intro f; exact ⟨rfl, rfl⟩
  | cons o rest ih =>
    intro f
    rw [apply_tcp_options_cons]
    cases o with
    | windowScale k =>
      dsimp only
      by_cases hk : 1 ≤ k ∧ k ≤ 14
      · rw [if_pos hk]; exact ⟨(ih _).1, (ih _).2⟩
      · rw [if_neg hk]; exact ⟨(ih _).1, (ih _).2⟩
    | maximumSegmentSize v => exact ⟨(ih _).1, (ih _).2⟩
    | other => exact ⟨(ih _).1, (ih _).2⟩

theorem apply_tcp_options_ws (opts : List TcpOptionElem) :
    ∀ f g : FlowBuff, f.window_scale = g.window_scale →
      (f.apply_tcp_options opts).window_scale =
        (g.apply_tcp_options opts).window_scale := by
  induction opts with
  | nil => intro f g h; exact h
  | cons o rest ih =>
    intro f g h
    rw [apply_tcp_options_cons, apply_tcp_options_cons]
    cases o with
    | windowScale k =>
      dsimp only
      by_cases hk : 1 ≤ k ∧ k ≤ 14
      · rw [if_pos hk, if_pos hk]; exact ih _ _ rfl
      · rw [if_neg hk, if_neg hk]; exact ih _ _ h
    | maximumSegmentSize v => exact ih _ _ h
    | other => exact ih _ _ h

theorem step_created_syn_fields (c c' : Conn) (p : TcpPacketInfo)
    (h0 : c.state = .Created) (hs : p.syn = true) (ha : p.ack = false)
    (hf : p.fin = false) (hr : p.rst = false) (hp : p.payload_len = 0)
    (h : c.process_packet_step p = some c') :
    c'.state = .SynSent p.dir ((p.seq + 1) % 4294967296) ∧
    (c'.flowOf p.dir).initial_sequence_number = p.seq ∧
    (c'.flowOf p.dir).max_seq = p.seq ∧
    (c'.flowOf p.dir).window_scale =
      ((c.flowOf p.dir).apply_tcp_options p.options).window_scale ∧
    c'.flowOf p.dir.other = c.flowOf p.dir.other := by
  simp only [Conn.process_packet_step, h0, hs, ha, hf, hr, hp,
    finWait2CloseMatch, Bool.or_false, Bool.not_false, Bool.and_true,
    Bool.false_or, if_false, if_true, Bool.and_self, add_bytes_zero,
    Bool.false_eq_true, ite_false, ite_true] at h
  simp only [Option.some.injEq] at h
  subst h
  refine ⟨?_, ?_, ?_, ?_, ?_⟩
  all_goals
    simp only [setFlow_state, flowOf_setFlow_same, flowOf_setFlow_other,
      state_update_flowOf, Conn.process_tcp_options,
      Conn.set_initial_sequence_number]
  case refine_2 =>
    rw [(apply_tcp_options_seq_fields p.options _).1]
    rfl
  case refine_3 =>
    rw [(apply_tcp_options_seq_fields p.options _).2]
    rfl
  case refine_4 => exact apply_tcp_options_ws p.options _ _ rfl

theorem step_synsent_established_fields (c c' : Conn) (p : TcpPacketInfo)
    (sd : PacketDir) (ea : Nat)
    (h0 : c.state = .SynSent sd ea) (hs : p.syn = true) (ha : p.ack = true)
    (hf : p.fin = false) (hr : p.rst = false) (hp : p.payload_len = 0)
    (hd : p.dir ≠ sd) (hack : p.ackNum = ea)
    (h : c.process_packet_step p = some c') :
    c'.state = .Established sd ∧
    (c'.flowOf p.dir).initial_sequence_number = p.seq ∧
    (c'.flowOf p.dir).max_seq = p.seq ∧
    (c'.flowOf p.dir).window_scale =
      ((c.flowOf p.dir).apply_tcp_options p.options).window_scale ∧
    c'.flowOf p.dir.other = c.flowOf p.dir.other := by
  have hb : (sd != p.dir) = true := bne_iff_ne.mpr (Ne.symm hd)
  simp only [Conn.process_packet_step, h0, hs, ha, hf, hr, hp, hb, hack,
    finWait2CloseMatch, beq_self_eq_true, Bool.or_false, Bool.not_false,
    Bool.and_true, Bool.true_and, Bool.and_self, Bool.false_or, if_false,
    if_true, add_bytes_zero, Bool.false_eq_true, ite_false, ite_true] at h
  simp only [Option.some.injEq] at h
  subst h
  refine ⟨?_, ?_, ?_, ?_, ?_⟩
  all_goals
    simp only [setFlow_state, flowOf_setFlow_same, flowOf_setFlow_other,
      state_update_flowOf, Conn.process_tcp_options,
      Conn.set_initial_sequence_number]
  case refine_2 =>
    rw [(apply_tcp_options_seq_fields p.options _).1]
    rfl
  case refine_3 =>
    rw [(apply_tcp_options_seq_fields p.options _).2]
    rfl
  case refine_4 => exact apply_tcp_options_ws p.options _ _ rfl

/-- C2 (against the spec-modelled process_packet wiring, since the
current connections.rs of the repository is not in src/): for every
connection in the Created state, processing a SYN without ACK from
direction d with sequence seq1, followed by a SYN+ACK from the opposite
direction with sequence seq2 whose acknowledgment number equals the
stored expected ack (seq1 + 1 mod 2^32), yields state Established(d),
calls set_initial_sequence_number on both directions' flows with the
sequence number of that direction's SYN (so ISN and max_seq of each flow
equal that sequence), and scans the TCP options of each SYN-bearing
packet on that direction's flow (the window scale equals the result of
the option scan). -/
theorem handshake_establishes_and_sets_isn (c0 c1 c2 : Conn)
    (d : PacketDir) (seq1 seq2 : Nat) (opts1 opts2 : List TcpOptionElem)
    (h0 : c0.state = ConnState.Created)
    (h1 : c0.process_packet_step
      { dir := d, syn := true, ack := false, fin := false, rst := false,
        seq := seq1, ackNum := 0, payload_len := 0, options := opts1,
        data := [] } = some c1)
    (h2 : c1.process_packet_step
      { dir := d.other, syn := true, ack := true, fin := false,
        rst := false, seq := seq2, ackNum := (seq1 + 1) % 4294967296,
        payload_len := 0, options := opts2, data := [] } = some c2) :
    c2.state = ConnState.Established d ∧
    (c2.flowOf d).initial_sequence_number = seq1 ∧
    (c2.flowOf d).max_seq = seq1 ∧
    (c2.flowOf d.other).initial_sequence_number = seq2 ∧
    (c2.flowOf d.other).max_seq = seq2 ∧
    (c2.flowOf d).window_scale =
      ((c0.flowOf d).apply_tcp_options opts1).window_scale ∧
    (c2.flowOf d.other).window_scale =
      ((c0.flowOf d.other).apply_tcp_options opts2).window_scale := by
  obtain ⟨hst1, hisn1, hmax1, hws1, hoth1⟩ :=
    step_created_syn_fields c0 c1 _ h0 rfl rfl rfl rfl rfl h1
  dsimp only at hst1 hisn1 hmax1 hws1 hoth1
  obtain ⟨hst2, hisn2, hmax2, hws2, hoth2⟩ :=
    step_synsent_established_fields c1 c2 _ d ((seq1 + 1) % 4294967296)
      hst1 rfl rfl rfl rfl rfl (by cases d <;> simp [PacketDir.other]) rfl h2
  dsimp only at hst2 hisn2 hmax2 hws2 hoth2
  rw [other_other] at hoth2
  refine ⟨hst2, ?_, ?_, hisn2, hmax2, ?_, ?_⟩
  · rw [hoth2]
    exact hisn1
  · rw [hoth2]
    exact hmax1
  · rw [hoth2, hws1]
  · rw [hws2, hoth1]

/-- Witness for handshake_establishes_and_sets_isn: the concrete
handshake wP1 (SYN, seq 1000, window scale 7) then wP2 (SYN+ACK, seq
5000, ack 1001) on a fresh connection. -/
theorem handshake_establishes_and_sets_isn_witness :
    wC2.state = ConnState.Established PacketDir.SrcLowAddr ∧
    (wC2.flowOf PacketDir.SrcLowAddr).initial_sequence_number = 1000 ∧
    (wC2.flowOf PacketDir.SrcLowAddr).max_seq = 1000 ∧
    (wC2.flowOf PacketDir.SrcLowAddr.other).initial_sequence_number =
      5000 ∧
    (wC2.flowOf PacketDir.SrcLowAddr.other).max_seq = 5000 ∧
    (wC2.flowOf PacketDir.SrcLowAddr).window_scale =
      ((Conn.new.flowOf PacketDir.SrcLowAddr).apply_tcp_options
        [TcpOptionElem.windowScale 7]).window_scale ∧
    (wC2.flowOf PacketDir.SrcLowAddr.other).window_scale =
      ((Conn.new.flowOf PacketDir.SrcLowAddr.other).apply_tcp_options
        []).window_scale :=
  handshake_establishes_and_sets_isn Conn.new wC1 wC2 PacketDir.SrcLowAddr
    1000 5000 [TcpOptionElem.windowScale 7] [] (by decide) (by decide)
    (by decide)
